import Mathlib

/-!
Shallow embedding of the Flask_Telemetry service (src/main.py) and proofs
of its specification properties.

The program is a single-endpoint HTTP telemetry facade: it checks four
environment variables at startup, builds a fixed Flux query string,
executes it against InfluxDB, folds the returned tables/records into an
ordered four-key mapping, and serializes that mapping as JSON.  External
effects (the store query, the UDP socket used for IP discovery) are
embedded as explicit outcome parameters.
-/

namespace FlaskTelemetry

/-! ### Store-native values

A record value coming back from the store is numeric, string, boolean or
null.  Floating-point numbers enter the program only through Python's
`str(value)` conversion, so a float is carried by its decimal rendering. -/

inductive PyValue where
  | null : PyValue
  | bool : Bool → PyValue
  | int : Int → PyValue
  | float : String → PyValue
  | str : String → PyValue
deriving DecidableEq, Repr

/-- Python's `str(value)` on the store-native values (src/main.py line 74). -/
def pyStr : PyValue → String
  | .null => "None"
  | .bool true => "True"
  | .bool false => "False"
  | .int n => toString n
  | .float r => r
  | .str s => s

/-- One record of a query result: carries a field name (`record.get_field()`)
and a value (`record.get_value()`). -/
structure FluxRecord where
  get_field : String
  get_value : PyValue
deriving DecidableEq, Repr

/-- One table of a query result, holding an ordered sequence of records. -/
structure FluxTable where
  records : List FluxRecord
deriving DecidableEq, Repr

/-- A query result: an ordered sequence of tables. -/
abbrev QueryResult := List FluxTable

/-! ### OrderedDict

`process_query_results` uses a `collections.OrderedDict` with `Option String`
values (`None` initially, `str(value)` after an update).  We embed it as an
insertion-ordered association list with Python dict assignment semantics:
assigning to an existing key updates it in place keeping its position,
assigning to a new key appends it at the end. -/

abbrev SensorDict := List (String × Option String)

/-- Python `key in dict` membership test. -/
def odMem (k : String) (d : SensorDict) : Bool :=
  d.any (fun p => p.1 == k)

/-- Python `dict[key] = value` assignment: update in place if the key exists
(keeping insertion order), otherwise append at the end. -/
def odSet (d : SensorDict) (k : String) (v : Option String) : SensorDict :=
  if odMem k d then
    d.map (fun p => if p.1 == k then (p.1, v) else p)
  else
    d ++ [(k, v)]

/-- Python `dict[key]` read: `some value` when the key is present. -/
def odLookup (d : SensorDict) (k : String) : Option (Option String) :=
  (d.find? (fun p => p.1 == k)).map (fun p => p.2)

/-- The key list of the dict, in insertion order. -/
def odKeys (d : SensorDict) : List String :=
  d.map (fun p => p.1)

/-! ### The result folder (src/main.py lines 59-75) -/

/-- The initial `OrderedDict` of `process_query_results` (lines 61-66). -/
def sensor_data_init : SensorDict :=
  [("Temperature", none), ("Humidity", none), ("Pressure", none), ("Sensor", none)]

/-- The four recognized field names, in the dict's insertion order. -/
def recognized_keys : List String :=
  ["Temperature", "Humidity", "Pressure", "Sensor"]

/-- The body of the inner loop (lines 70-74): read field and value; if the
field is a key of the dict, overwrite it with `str(value)`. -/
def foldRecord (sd : SensorDict) (record : FluxRecord) : SensorDict :=
  if odMem record.get_field sd then
    odSet sd record.get_field (some (pyStr record.get_value))
  else
    sd

/-- `process_query_results` (lines 59-75): fold every record of every table
into the four-key ordered dict. -/
def process_query_results (result : QueryResult) : SensorDict :=
  result.foldl (fun sd table => table.records.foldl foldRecord sd) sensor_data_init

/-- All records of a result, in iteration order of the two nested loops. -/
def allRecords (result : QueryResult) : List FluxRecord :=
  (result.map (fun t => t.records)).flatten

/-- A result with every unrecognized-field record removed. -/
def dropUnrecognized (result : QueryResult) : QueryResult :=
  result.map (fun t => ⟨t.records.filter (fun r => recognized_keys.contains r.get_field)⟩)

/-! ### JSON serialization (`json.dumps` on the folded dict)

Modelled from Python's `json.dumps` with default separators: the dict maps
to an object in insertion order, `None` to `null`, a string to a quoted
string with backslash and quote escaped. -/

def jsonEscape (s : String) : String :=
  String.join (s.data.map (fun c =>
    if c = '\\' then "\\\\" else if c = '"' then "\\\"" else String.singleton c))

def jsonOfValue : Option String → String
  | none => "null"
  | some s => "\"" ++ jsonEscape s ++ "\""

def json_dumps (d : SensorDict) : String :=
  "\x7b" ++
    String.intercalate ", "
      (d.map (fun p => "\"" ++ jsonEscape p.1 ++ "\": " ++ jsonOfValue p.2)) ++
  "\x7d"

/-! ### The Flux query builder (src/main.py lines 46-56) -/

/-- `construct_flux_query()`: a zero-argument function returning a fixed
Flux query string (the Python triple-quoted literal, lines 48-56). -/
def construct_flux_query (_ : Unit) : String :=
  "\n        from(bucket: \"House Telemetry\")\n        |> range(start: -60m)\n        |> filter(fn: (r) => r[\"_measurement\"] == \"ESP32\")\n        |> filter(fn: (r) => r[\"Name\"] == \"Telemetry\")\n        |> filter(fn: (r) => r[\"_field\"] == \"Pressure\" or r[\"_field\"] == \"Humidity\" or r[\"_field\"] == \"Sensor\" or r[\"_field\"] == \"Temperature\")\n        |> aggregateWindow(every: 10s, fn: last, createEmpty: false)\n        |> last()\n        "

/-- The process configuration read from the environment (lines 36-39). -/
structure Config where
  influxdb_url : String
  token : String
  org : String
  bucket : String
deriving DecidableEq, Repr

/-- The query string a process with the given configuration sends to the
store: `get_data` calls `construct_flux_query()`, which takes no input from
the configuration (the configured bucket at line 39 is never used). -/
def flux_query_of_config (_ : Config) : String :=
  construct_flux_query ()

/-- Substring containment on strings. -/
def strContains (s pat : String) : Prop :=
  pat.data <:+: s.data

instance (s pat : String) : Decidable (strContains s pat) :=
  List.decidableInfix pat.data s.data

/-! ### The HTTP handler (src/main.py lines 78-88) -/

structure HttpResponse where
  status : Nat
  mimetype : String
  body : String
deriving DecidableEq, Repr

/-- The fixed description passed to `abort(500, ...)` at line 88. -/
def errorDescription : String :=
  "Internal Server Error while querying InfluxDB"

/-- `get_data` (lines 78-88), with the store round-trip embedded as an
`Except` outcome: on success, fold and serialize with mimetype
application/json; on any exception, abort with a 500 and the fixed
description (the exception text `e` reaches only the server-side log). -/
def get_data (queryOutcome : Except String QueryResult) : HttpResponse :=
  match queryOutcome with
  | .ok result => ⟨200, "application/json", json_dumps (process_query_results result)⟩
  | .error _ => ⟨500, "text/html", errorDescription⟩

/-! ### Startup environment check (src/main.py lines 14-21) -/

/-- A process environment: `os.getenv` returns `none` for an unset variable. -/
abbrev Env := String → Option String

def required_vars : List String :=
  ["INFLUXDB_URL", "INFLUXDB_TOKEN", "INFLUXDB_ORG", "INFLUXDB_BUCKET"]

/-- Python truthiness of `os.getenv(var)`: `None` and the empty string are
falsy, every other string is truthy. -/
def py_truthy : Option String → Bool
  | none => false
  | some s => !(s == "")

/-- `missing_vars` (line 16): the required variables whose `os.getenv` value
is falsy, in the order of `required_vars`. -/
def missing_vars (env : Env) : List String :=
  required_vars.filter (fun v => !(py_truthy (env v)))

/-- `check_env_variables` (lines 14-18): raise listing the missing names
when any required variable is unset or empty, succeed otherwise. -/
def check_env_variables (env : Env) : Except String Unit :=
  if missing_vars env ≠ [] then
    .error ("Missing environment variables: " ++ String.intercalate ", " (missing_vars env))
  else
    .ok ()

/-! ### Local IP discovery (src/main.py lines 91-102)

The socket interactions are embedded as an outcome oracle.  Note the
`socket.socket(...)` call at line 93 sits before the `try` block: a
creation failure is an uncaught exception.  The `connect`/`getsockname`
calls sit inside the `try`, answered by the `except` fallback, and
`finally` closes the socket. -/

inductive SocketWorld where
  | createFails : SocketWorld
  | connectFails : SocketWorld
  | ok : String → SocketWorld
deriving DecidableEq, Repr

structure IPOutcome where
  /-- `.ok ip` when `get_local_ip` returns, `.error ()` when an exception
  escapes it. -/
  result : Except Unit String
  /-- Whether `s.close()` ran. -/
  closed : Bool
deriving Repr

/-- `get_local_ip` (lines 91-102) over the socket outcome oracle. -/
def get_local_ip : SocketWorld → IPOutcome
  | .createFails => ⟨Except.error (), false⟩
  | .connectFails => ⟨Except.ok "127.0.0.1", true⟩
  | .ok addr => ⟨Except.ok addr, true⟩

/-! ### Concrete test environments -/

/-- An environment where every variable is set, but the token is set to the
empty string. -/
def envTokenEmpty : Env :=
  fun v => if v = "INFLUXDB_TOKEN" then some "" else some "value"

/-- An environment where every variable is set to a non-empty value. -/
def envAllSet : Env :=
  fun _ => some "x"

/-! ### Helper lemmas about the ordered dict and the fold -/

lemma odKeys_map_set (d : SensorDict) (k : String) (v : Option String) :
    odKeys (d.map (fun p => if p.1 == k then (p.1, v) else p)) = odKeys d := by
  unfold odKeys
  rw [List.map_map]
  apply List.map_eq_map_iff.mpr
  intro p _
  by_cases h : p.1 == k <;> simp [Function.comp, h]

lemma odKeys_set_of_mem (d : SensorDict) (k : String) (v : Option String)
    (hmem : odMem k d = true) : odKeys (odSet d k v) = odKeys d := by
  unfold odSet
  rw [if_pos hmem]
  exact odKeys_map_set d k v

lemma odMem_iff (k : String) (d : SensorDict) : odMem k d = true ↔ k ∈ odKeys d := by
  unfold odMem odKeys
  rw [List.any_eq_true]
  constructor
  · rintro ⟨p, hp, hbeq⟩
    exact List.mem_map.mpr ⟨p, hp, eq_of_beq hbeq⟩
  · intro hk
    rcases List.mem_map.mp hk with ⟨p, hp, hpk⟩
    exact ⟨p, hp, by simp [hpk]⟩

lemma odMem_congr_keys (k : String) (d d' : SensorDict) (h : odKeys d = odKeys d') :
    odMem k d = odMem k d' := by
  rcases hm : odMem k d with _ | _
  · rcases hm' : odMem k d' with _ | _
    · rfl
    · exact absurd ((odMem_iff k d).mpr (h ▸ (odMem_iff k d').mp hm')) (by simp [hm])
  · exact ((odMem_iff k d').mpr (h ▸ (odMem_iff k d).mp hm)).symm

lemma odLookup_map_set_self (d : SensorDict) (k : String) (v : Option String)
    (hmem : odMem k d = true) :
    odLookup (d.map (fun p => if p.1 == k then (p.1, v) else p)) k = some v := by
  induction d with
  | nil => simp [odMem] at hmem
  | cons p d ih =>
    by_cases h : p.1 == k
    · rw [List.map_cons, if_pos h]
      simp only [odLookup, List.find?, h]
      rfl
    · have hmem' : odMem k d = true := by
        simpa [odMem, h] using hmem
      have ih' := ih hmem'
      rw [List.map_cons, if_neg h]
      simp only [odLookup, List.find?, Bool.not_eq_true] at ih' h ⊢
      rw [h]
      exact ih'

lemma odLookup_set_self (d : SensorDict) (k : String) (v : Option String)
    (hmem : odMem k d = true) : odLookup (odSet d k v) k = some v := by
  unfold odSet
  rw [if_pos hmem]
  exact odLookup_map_set_self d k v hmem

lemma odLookup_map_set_other (d : SensorDict) (k k' : String) (v : Option String)
    (h : (k' == k) = false) :
    odLookup (d.map (fun p => if p.1 == k' then (p.1, v) else p)) k = odLookup d k := by
  induction d with
  | nil => rfl
  | cons p d ih =>
    by_cases hp : p.1 == k'
    · have hpk : (p.1 == k) = false := by
        have hpe : p.1 = k' := eq_of_beq hp
        rw [hpe, h]
      rw [List.map_cons, if_pos hp]
      simp only [odLookup, List.find?] at ih ⊢
      rw [hpk]
      exact ih
    · rw [List.map_cons, if_neg hp]
      by_cases hk : p.1 == k
      · simp only [odLookup, List.find?, hk]
      · simp only [Bool.not_eq_true] at hk
        simp only [odLookup, List.find?] at ih ⊢
        rw [hk]
        exact ih

lemma odLookup_append_other (d : SensorDict) (k k' : String) (v : Option String)
    (h : (k' == k) = false) : odLookup (d ++ [(k', v)]) k = odLookup d k := by
  induction d with
  | nil =>
    simp only [List.nil_append, odLookup, List.find?]
    rw [h]
  | cons p d ih =>
    rw [List.cons_append]
    by_cases hk : p.1 == k
    · simp only [odLookup, List.find?, hk]
    · simp only [Bool.not_eq_true] at hk
      simp only [odLookup, List.find?] at ih ⊢
      rw [hk]
      exact ih

lemma odLookup_set_other (d : SensorDict) (k k' : String) (v : Option String)
    (h : (k' == k) = false) : odLookup (odSet d k' v) k = odLookup d k := by
  unfold odSet
  by_cases hm : odMem k' d
  · rw [if_pos hm]
    exact odLookup_map_set_other d k k' v h
  · rw [if_neg hm]
    exact odLookup_append_other d k k' v h

lemma foldRecord_odKeys (sd : SensorDict) (r : FluxRecord) :
    odKeys (foldRecord sd r) = odKeys sd := by
  unfold foldRecord
  by_cases h : odMem r.get_field sd
  · simp [h, odKeys_set_of_mem _ _ _ h]
  · simp [h]

lemma foldl_foldRecord_odKeys (rs : List FluxRecord) (sd : SensorDict) :
    odKeys (rs.foldl foldRecord sd) = odKeys sd := by
  induction rs generalizing sd with
  | nil => rfl
  | cons r rs ih => simpa [foldRecord_odKeys] using ih (foldRecord sd r)

lemma foldRecord_odMem (sd : SensorDict) (r : FluxRecord) (k : String) :
    odMem k (foldRecord sd r) = odMem k sd :=
  odMem_congr_keys k _ _ (foldRecord_odKeys sd r)

/-- Characterization of the fold: the value stored under a present key `k`
after folding a record list is `str` of the value of the last record whose
field is `k`, and the prior value when no record has field `k`. -/
lemma foldl_foldRecord_lookup (rs : List FluxRecord) (sd : SensorDict) (k : String)
    (hmem : odMem k sd = true) :
    odLookup (rs.foldl foldRecord sd) k =
      match (rs.filter (fun r => r.get_field == k)).getLast? with
      | some r => some (some (pyStr r.get_value))
      | none => odLookup sd k := by
  induction rs generalizing sd with
  | nil => simp
  | cons r rs ih =>
    by_cases h : r.get_field == k
    · have hf : r.get_field = k := eq_of_beq h
      have hmem' : odMem r.get_field sd = true := by rw [hf]; exact hmem
      have hstep : foldRecord sd r = odSet sd r.get_field (some (pyStr r.get_value)) := by
        simp [foldRecord, hmem']
      have hmemset : odMem k (odSet sd r.get_field (some (pyStr r.get_value))) = true := by
        rw [odMem_congr_keys k _ sd (odKeys_set_of_mem _ _ _ hmem')]
        exact hmem
      rw [List.foldl_cons, hstep, ih _ hmemset, List.filter_cons, if_pos h,
        List.getLast?_cons]
      rcases hl : (rs.filter (fun r => r.get_field == k)).getLast? with _ | r'
      · rw [hl]
        simp only [Option.getD_none]
        show odLookup (odSet sd r.get_field (some (pyStr r.get_value))) k =
          some (some (pyStr r.get_value))
        rw [hf]
        exact odLookup_set_self sd k _ hmem
      · rw [hl]
        rfl
    · have hstep : odLookup (foldRecord sd r) k = odLookup sd k := by
        unfold foldRecord
        by_cases hm : odMem r.get_field sd
        · rw [if_pos hm]
          exact odLookup_set_other _ _ _ _ (by simpa using h)
        · rw [if_neg hm]
      rw [List.foldl_cons, ih _ (by rw [foldRecord_odMem]; exact hmem),
        List.filter_cons, if_neg h]
      rcases hl : (rs.filter (fun r => r.get_field == k)).getLast? with _ | r'
      · rw [hl]
        exact hstep
      · rw [hl]

/-- `process_query_results` is the fold of `foldRecord` over the flattened
record sequence. -/
lemma process_eq_foldl_allRecords (result : QueryResult) :
    process_query_results result = (allRecords result).foldl foldRecord sensor_data_init := by
  unfold process_query_results allRecords
  rw [List.foldl_flatten, List.foldl_map]

lemma process_odKeys (result : QueryResult) :
    odKeys (process_query_results result) = recognized_keys := by
  rw [process_eq_foldl_allRecords, foldl_foldRecord_odKeys]
  rfl

lemma odMem_init (k : String) (hk : k ∈ recognized_keys) :
    odMem k sensor_data_init = true := by
  simp [recognized_keys] at hk
  rcases hk with rfl | rfl | rfl | rfl <;> decide

lemma odLookup_init (k : String) (hk : k ∈ recognized_keys) :
    odLookup sensor_data_init k = some none := by
  simp [recognized_keys] at hk
  rcases hk with rfl | rfl | rfl | rfl <;> decide

/-- Lookup in the folded output, for a recognized key: last write wins,
absent marker exactly when no record carries the key. -/
lemma process_lookup (result : QueryResult) (k : String) (hk : k ∈ recognized_keys) :
    odLookup (process_query_results result) k =
      match ((allRecords result).filter (fun r => r.get_field == k)).getLast? with
      | some r => some (some (pyStr r.get_value))
      | none => some none := by
  rw [process_eq_foldl_allRecords,
    foldl_foldRecord_lookup _ _ _ (odMem_init k hk), odLookup_init k hk]

lemma allRecords_cons (t : FluxTable) (ts : QueryResult) :
    allRecords (t :: ts) = t.records ++ allRecords ts := rfl

/-- Dropping the unrecognized-field records commutes with flattening. -/
lemma allRecords_dropUnrecognized (result : QueryResult) :
    allRecords (dropUnrecognized result) =
      (allRecords result).filter (fun r => recognized_keys.contains r.get_field) := by
  induction result with
  | nil => rfl
  | cons t ts ih =>
    rw [dropUnrecognized, List.map_cons, ← dropUnrecognized, allRecords_cons,
      allRecords_cons, ih, List.filter_append]

/-- A fold step on a record whose field is not a key of the dict is the
identity, so filtering to recognized fields leaves the fold unchanged. -/
lemma foldl_filter_recognized (rs : List FluxRecord) (sd : SensorDict)
    (hkeys : odKeys sd = recognized_keys) :
    (rs.filter (fun r => recognized_keys.contains r.get_field)).foldl foldRecord sd
      = rs.foldl foldRecord sd := by
  induction rs generalizing sd with
  | nil => rfl
  | cons r rs ih =>
    by_cases hr : recognized_keys.contains r.get_field
    · rw [List.filter_cons, if_pos hr, List.foldl_cons, List.foldl_cons,
        ih _ (by rw [foldRecord_odKeys]; exact hkeys)]
    · have hmem : ¬ odMem r.get_field sd = true := by
        intro hb
        have hin : r.get_field ∈ odKeys sd := (odMem_iff _ _).mp hb
        rw [hkeys] at hin
        exact hr (List.elem_iff.mpr hin)
      have hstep : foldRecord sd r = sd := by
        unfold foldRecord
        rw [if_neg hmem]
      rw [List.filter_cons, if_neg hr, List.foldl_cons, hstep, ih _ hkeys]

/-! ### Claim theorems -/

/-- C1: for every query result, the folded output contains exactly the four
keys Temperature, Humidity, Pressure, Sensor in insertion order, every key
with no recognized matching record maps to the absent marker `none`, and the
absent marker serializes as JSON `null`. -/
theorem process_query_results_keys_fixed_and_absent_null (result : QueryResult) :
    odKeys (process_query_results result) = recognized_keys ∧
    (∀ k, k ∈ recognized_keys →
      (allRecords result).filter (fun r => r.get_field == k) = [] →
      odLookup (process_query_results result) k = some none) ∧
    jsonOfValue none = "null" := by
  refine ⟨process_odKeys result, fun k hk hnone => ?_, rfl⟩
  rw [process_lookup result k hk, hnone]
  rfl

/-- Witness for C1 at a concrete result whose only record carries an
unrecognized field. -/
theorem process_query_results_keys_fixed_and_absent_null_witness :
    odKeys (process_query_results [⟨[⟨"Voltage", PyValue.int 3⟩]⟩]) = recognized_keys ∧
    odLookup (process_query_results [⟨[⟨"Voltage", PyValue.int 3⟩]⟩]) "Temperature" =
      some none :=
  ⟨(process_query_results_keys_fixed_and_absent_null [⟨[⟨"Voltage", PyValue.int 3⟩]⟩]).1,
    (process_query_results_keys_fixed_and_absent_null [⟨[⟨"Voltage", PyValue.int 3⟩]⟩]).2.1
      "Temperature" (by decide) (by decide)⟩

/-- C2: when the same recognized field occurs in several records, the folded
value is `str` of the value of the last record processed for that field in
iteration order (last write wins). -/
theorem process_query_results_last_write_wins (result : QueryResult) (k : String)
    (hk : k ∈ recognized_keys) (r : FluxRecord)
    (hlast : ((allRecords result).filter (fun x => x.get_field == k)).getLast? = some r) :
    odLookup (process_query_results result) k = some (some (pyStr r.get_value)) := by
  rw [process_lookup result k hk, hlast]

/-- Witness for C2: the result carrying (Temperature, 21.5) then
(Temperature, 21.8) folds to Temperature = "21.8". -/
theorem process_query_results_last_write_wins_witness :
    odLookup
      (process_query_results
        [⟨[⟨"Temperature", PyValue.float "21.5"⟩, ⟨"Temperature", PyValue.float "21.8"⟩]⟩])
      "Temperature" = some (some "21.8") :=
  process_query_results_last_write_wins
    [⟨[⟨"Temperature", PyValue.float "21.5"⟩, ⟨"Temperature", PyValue.float "21.8"⟩]⟩]
    "Temperature" (by decide) ⟨"Temperature", PyValue.float "21.8"⟩ (by decide)

/-- C3: records with unrecognized field names never affect the folded
output: folding a result equals folding the result with every
unrecognized-field record removed. -/
theorem process_query_results_ignores_unrecognized (result : QueryResult) :
    process_query_results (dropUnrecognized result) = process_query_results result := by
  rw [process_eq_foldl_allRecords, process_eq_foldl_allRecords,
    allRecords_dropUnrecognized]
  exact foldl_filter_recognized _ _ rfl

/-- C4: on any store failure the handler answers 500 with the fixed
non-empty generic description; the response does not depend on the
exception text (so none of it can leak), and no outcome escapes the handler
without an HTTP response (status 200 or 500). -/
theorem get_data_store_failure_opaque_500 :
    (∀ e : String, get_data (Except.error e) = ⟨500, "text/html", errorDescription⟩) ∧
    errorDescription ≠ "" ∧
    (∀ outcome, (get_data outcome).status = 200 ∨ (get_data outcome).status = 500) := by
  refine ⟨fun e => rfl, by decide, fun outcome => ?_⟩
  cases outcome with
  | error e => exact Or.inr rfl
  | ok r => exact Or.inl rfl

/-- C5: a successful empty result yields HTTP 200, content type
application/json, and a body mapping each of the four keys to null; any
successful result with no records at all yields that same response. -/
theorem get_data_empty_result_all_null :
    get_data (Except.ok []) =
      ⟨200, "application/json",
        "\x7b\"Temperature\": null, \"Humidity\": null, \"Pressure\": null, \"Sensor\": null\x7d"⟩ ∧
    (∀ result : QueryResult, allRecords result = [] →
      get_data (Except.ok result) = get_data (Except.ok [])) := by
  refine ⟨rfl, fun result h => ?_⟩
  have hinit : process_query_results result = sensor_data_init := by
    rw [process_eq_foldl_allRecords, h]
    rfl
  show HttpResponse.mk 200 "application/json" (json_dumps (process_query_results result)) =
    get_data (Except.ok [])
  rw [hinit]
  rfl

/-- Witness for C5 at a result with one table and no records. -/
theorem get_data_empty_result_all_null_witness :
    get_data (Except.ok [⟨[]⟩]) = get_data (Except.ok []) :=
  get_data_empty_result_all_null.2 [⟨[]⟩] rfl

/-- C6 counterexample: an environment in which all four variables are
present but the token is the empty string; the claim says startup then
proceeds, yet `check_env_variables` aborts and lists INFLUXDB_TOKEN. -/
theorem check_env_variables_counterexample :
    ((envTokenEmpty "INFLUXDB_URL").isSome = true ∧
      (envTokenEmpty "INFLUXDB_TOKEN").isSome = true ∧
      (envTokenEmpty "INFLUXDB_ORG").isSome = true ∧
      (envTokenEmpty "INFLUXDB_BUCKET").isSome = true) ∧
    check_env_variables envTokenEmpty =
      Except.error "Missing environment variables: INFLUXDB_TOKEN" := by
  refine ⟨⟨rfl, rfl, rfl, rfl⟩, ?_⟩
  rfl

/-- C6 amended: startup succeeds exactly when every required variable is
set to a non-empty string; the missing list holds exactly the required
variables that are unset or empty; a non-empty missing list aborts startup
with a message listing exactly those names. -/
theorem check_env_variables_missing_or_empty (env : Env) :
    (check_env_variables env = Except.ok () ↔
      ∀ v ∈ required_vars, py_truthy (env v) = true) ∧
    (∀ v, v ∈ missing_vars env ↔ (v ∈ required_vars ∧ py_truthy (env v) = false)) ∧
    (missing_vars env ≠ [] →
      check_env_variables env =
        Except.error ("Missing environment variables: " ++
          String.intercalate ", " (missing_vars env))) := by
  refine ⟨?_, ?_, ?_⟩
  · unfold check_env_variables
    by_cases h : missing_vars env ≠ []
    · rw [if_pos h]
      constructor
      · intro hcontra
        exact Except.noConfusion hcontra
      · intro hall
        apply absurd _ h
        unfold missing_vars
        rw [List.filter_eq_nil_iff]
        intro v hv
        rw [hall v hv]
        decide
    · rw [if_neg h]
      have hnil : missing_vars env = [] := not_ne_iff.mp h
      constructor
      · intro _ v hv
        have hf := List.filter_eq_nil_iff.mp hnil v hv
        simpa using hf
      · intro _
        rfl
  · intro v
    unfold missing_vars
    rw [List.mem_filter]
    simp
  · intro h
    unfold check_env_variables
    rw [if_pos h]

/-- Witness for C6 amended: with every variable set non-empty, startup
proceeds. -/
theorem check_env_variables_missing_or_empty_witness :
    check_env_variables envAllSet = Except.ok () :=
  (check_env_variables_missing_or_empty envAllSet).1.mpr (by decide)

set_option maxRecDepth 100000 in
/-- C7: the query builder returns the same string on every call, and that
string selects from the literal bucket "House Telemetry", uses the relative
range -60m (no absolute call time appears, since the string is a per-call
constant), filters measurement ESP32 and tag Name = Telemetry, restricts
the field to the four recognized names, aggregates 10-second windows
keeping the last value and dropping empty windows, and reduces to the
single most recent point. -/
theorem construct_flux_query_fixed_semantics :
    (∀ u v : Unit, construct_flux_query u = construct_flux_query v) ∧
    strContains (construct_flux_query ()) "from(bucket: \"House Telemetry\")" ∧
    strContains (construct_flux_query ()) "|> range(start: -60m)" ∧
    strContains (construct_flux_query ())
      "|> filter(fn: (r) => r[\"_measurement\"] == \"ESP32\")" ∧
    strContains (construct_flux_query ()) "|> filter(fn: (r) => r[\"Name\"] == \"Telemetry\")" ∧
    strContains (construct_flux_query ())
      "r[\"_field\"] == \"Pressure\" or r[\"_field\"] == \"Humidity\" or r[\"_field\"] == \"Sensor\" or r[\"_field\"] == \"Temperature\"" ∧
    strContains (construct_flux_query ())
      "|> aggregateWindow(every: 10s, fn: last, createEmpty: false)" ∧
    strContains (construct_flux_query ()) "|> last()" :=
  ⟨fun _ _ => rfl, by decide, by decide, by decide, by decide, by decide, by decide,
    by decide⟩

set_option maxRecDepth 100000 in
/-- C8: the configured bucket value never influences the query string: any
two configurations agreeing on the other three parameters produce the
identical query string, which names the hardcoded literal bucket
"House Telemetry". -/
theorem flux_query_bucket_noninterference (c₁ c₂ : Config)
    (hurl : c₁.influxdb_url = c₂.influxdb_url) (htok : c₁.token = c₂.token)
    (horg : c₁.org = c₂.org) :
    flux_query_of_config c₁ = flux_query_of_config c₂ ∧
    strContains (flux_query_of_config c₁) "from(bucket: \"House Telemetry\")" := by
  refine ⟨rfl, ?_⟩
  show strContains (construct_flux_query ()) "from(bucket: \"House Telemetry\")"
  decide

set_option maxRecDepth 100000 in
/-- Witness for C8 at two configurations differing only in the bucket. -/
theorem flux_query_bucket_noninterference_witness :
    flux_query_of_config ⟨"http://db:8086", "tok", "org", "BucketA"⟩ =
      flux_query_of_config ⟨"http://db:8086", "tok", "org", "BucketB"⟩ ∧
    strContains (flux_query_of_config ⟨"http://db:8086", "tok", "org", "BucketA"⟩)
      "from(bucket: \"House Telemetry\")" :=
  flux_query_bucket_noninterference _ _ rfl rfl rfl

/-- C9 counterexample: when socket creation itself fails, the exception
escapes `get_local_ip` (the call sits before the `try` block); the function
does not return the loopback fallback there, contrary to the claim that it
falls back for any failure including socket creation errors. -/
theorem get_local_ip_create_failure_counterexample :
    (get_local_ip SocketWorld.createFails).result = Except.error () ∧
    ¬ (get_local_ip SocketWorld.createFails).result = Except.ok "127.0.0.1" := by
  constructor
  · rfl
  · intro h
    have h' : (Except.error () : Except Unit String) = Except.ok "127.0.0.1" := h
    exact Except.noConfusion h'

/-- C9 amended: once the socket is created, `get_local_ip` never raises and
always closes the socket; it returns the loopback address when the
connect/read-back step fails and the locally bound address when it
succeeds. -/
theorem get_local_ip_fallback_after_creation (w : SocketWorld)
    (h : w ≠ SocketWorld.createFails) :
    (get_local_ip w).closed = true ∧
    ((get_local_ip w).result = Except.ok "127.0.0.1" ∨
      ∃ a, w = SocketWorld.ok a ∧ (get_local_ip w).result = Except.ok a) := by
  cases w with
  | createFails => exact absurd rfl h
  | connectFails => exact ⟨rfl, Or.inl rfl⟩
  | ok a => exact ⟨rfl, Or.inr ⟨a, rfl, rfl⟩⟩

/-- Witness for C9 amended at the connect-failure outcome. -/
theorem get_local_ip_fallback_after_creation_witness :
    (get_local_ip SocketWorld.connectFails).closed = true ∧
    ((get_local_ip SocketWorld.connectFails).result = Except.ok "127.0.0.1" ∨
      ∃ a, SocketWorld.connectFails = SocketWorld.ok a ∧
        (get_local_ip SocketWorld.connectFails).result = Except.ok a) :=
  get_local_ip_fallback_after_creation SocketWorld.connectFails (by decide)

/-- C10: a recognized record carrying the store-native null folds to the
string "None" (never the absent marker), the absent marker arises exactly
when no recognized record occurs for the key, and the value "None"
serializes as the JSON string. -/
theorem process_query_results_null_value_stringified (result : QueryResult) (k : String)
    (hk : k ∈ recognized_keys) :
    (∀ r, ((allRecords result).filter (fun x => x.get_field == k)).getLast? = some r →
      r.get_value = PyValue.null →
      odLookup (process_query_results result) k = some (some "None")) ∧
    (odLookup (process_query_results result) k = some none ↔
      (allRecords result).filter (fun x => x.get_field == k) = []) ∧
    jsonOfValue (some "None") = "\"None\"" := by
  refine ⟨?_, ?_, rfl⟩
  · intro r hlast hnull
    rw [process_lookup result k hk, hlast]
    show some (some (pyStr r.get_value)) = some (some "None")
    rw [hnull]
    rfl
  · rw [process_lookup result k hk]
    rcases hl : ((allRecords result).filter (fun x => x.get_field == k)).getLast?
      with _ | r
    · rw [hl]
      exact ⟨fun _ => List.getLast?_eq_none_iff.mp hl, fun _ => rfl⟩
    · rw [hl]
      constructor
      · intro hcontra
        have h' : some (some (pyStr r.get_value)) = some (none : Option String) := hcontra
        exact Option.noConfusion (Option.some.inj h')
      · intro hnil
        rw [hnil] at hl
        have h' : (none : Option FluxRecord) = some r := hl
        exact Option.noConfusion h'

/-- Witness for C10 at a result with a single Temperature record carrying
the store-native null. -/
theorem process_query_results_null_value_stringified_witness :
    odLookup (process_query_results [⟨[⟨"Temperature", PyValue.null⟩]⟩]) "Temperature" =
      some (some "None") :=
  (process_query_results_null_value_stringified [⟨[⟨"Temperature", PyValue.null⟩]⟩]
    "Temperature" (by decide)).1 ⟨"Temperature", PyValue.null⟩ (by decide) rfl

end FlaskTelemetry
